import Mathlib

/-!
Shallow embedding of the ShopHub storefront's cart / checkout workflow and
its row-level authorization policies.

Tables (from `supabase/migrations/20260216193806_create_ecommerce_schema.sql`)
are modelled as lists of rows; uuid identifiers are modelled as `Nat`,
JavaScript numbers carrying prices as `ℚ`, quantities as `Int` (the UI can
compute `quantity - 1`).  Each React handler that mutates the database is
modelled as a pure function from a database state (plus the authenticated
user, `Option Nat`) to a new state together with the UI signal it produces.
Storage failures, which Supabase reports as result values, are injected as
boolean parameters saying whether a given write call fails.
-/

namespace ShopHub

/-- Row of `products` (schema lines 64-74): id, name, description,
price (`numeric`, non-negativity is a table constraint, not carried in the
type), image_url, nullable category reference, stock, featured flag. -/
structure Product where
  id : Nat
  name : List Char
  description : List Char
  price : ℚ
  image_url : List Char
  category_id : Option Nat
  stock : Int
  featured : Bool
deriving Repr, DecidableEq

/-- Row of `cart_items` (schema lines 76-83). -/
structure CartItem where
  id : Nat
  user_id : Nat
  product_id : Nat
  quantity : Int
deriving Repr, DecidableEq

/-- Row of `orders` (schema lines 85-94). -/
structure Order where
  id : Nat
  user_id : Nat
  total : ℚ
  status : List Char
  customer_name : List Char
  customer_email : List Char
  customer_address : List Char
deriving Repr, DecidableEq

/-- Row of `order_items` (schema lines 96-103); `price` is the unit price
captured at order time. -/
structure OrderItem where
  id : Nat
  order_id : Nat
  product_id : Nat
  quantity : Int
  price : ℚ
deriving Repr, DecidableEq

/-- The mutable database state: the four tables the in-scope workflow
touches (categories are read-only seed data and never consulted by the
modelled handlers). -/
structure DB where
  products : List Product
  cart_items : List CartItem
  orders : List Order
  order_items : List OrderItem
deriving Repr, DecidableEq

/-- The customer snapshot supplied by the checkout form. -/
structure Customer where
  name : List Char
  email : List Char
  address : List Char
deriving Repr, DecidableEq

/-- What the user-facing side of a handler does when it returns:
`showAuthModal` opens the sign-in modal, `silentReturn` is a bare `return`
with no UI feedback, `errorAlert` is the `alert('Error placing order...')`
call, `orderPlacedScreen` is the success screen of `Checkout`, and
`cartUpdated` is the `cart-updated` event dispatch after a cart mutation. -/
inductive UiSignal where
  | showAuthModal
  | silentReturn
  | errorAlert
  | orderPlacedScreen
  | cartUpdated
deriving Repr, DecidableEq

/-- The cart lines belonging to user `u`: the
`.from('cart_items').select(...).eq('user_id', user.id)` query. -/
def cartLines (db : DB) (u : Nat) : List CartItem :=
  db.cart_items.filter (fun ci => ci.user_id == u)

/-- A cart row joined with its product, as returned by the
`select('id, quantity, product:products(id, name, price)')` embed used by
`Checkout.fetchCartItems`. -/
structure FetchedItem where
  id : Nat
  quantity : Int
  productId : Nat
  productPrice : ℚ
deriving Repr, DecidableEq

/-- `Checkout.fetchCartItems`: the user's cart rows, each joined to its
product (rows whose product reference resolves to no product are dropped,
matching the join; the `ON DELETE CASCADE` foreign key makes that case
unreachable in the real database). -/
def fetchCartItems (db : DB) (u : Nat) : List FetchedItem :=
  (cartLines db u).filterMap (fun ci =>
    (db.products.find? (fun p => p.id == ci.product_id)).map (fun p =>
      { id := ci.id, quantity := ci.quantity, productId := p.id
        productPrice := p.price }))

/-- `Checkout`'s `total`:
`cartItems.reduce((sum, item) => sum + item.product.price * item.quantity, 0)`. -/
def checkoutTotal (items : List FetchedItem) : ℚ :=
  items.foldl (fun s it => s + it.productPrice * (it.quantity : ℚ)) 0

/-- The `order_items` rows built by `handlePlaceOrder`'s
`cartItems.map(item => ({order_id, product_id, quantity, price}))`; the
database generates fresh primary keys, modelled as `iid`, `iid+1`, ... -/
def mkOrderItems (oid : Nat) (iid : Nat) : List FetchedItem → List OrderItem
  | [] => []
  | it :: rest =>
      { id := iid, order_id := oid, product_id := it.productId,
        quantity := it.quantity, price := it.productPrice }
        :: mkOrderItems oid (iid + 1) rest

/-- `Checkout.handlePlaceOrder` (part_001 lines 54-105).  `oid` and `iid`
are the database-generated primary keys for the new order and its first
item; `failOrder`, `failItems`, `failClear` inject a storage failure into
the corresponding Supabase call.  The source checks only the order
insert's error; the order-items insert and the cart delete are `await`ed
without examining their results. -/
def handlePlaceOrder (db : DB) (user : Option Nat) (cust : Customer)
    (oid iid : Nat) (failOrder failItems failClear : Bool) :
    DB × UiSignal :=
  match user with
  | none => (db, .silentReturn)
  | some u =>
    let items := fetchCartItems db u
    let total := checkoutTotal items
    if failOrder then
      (db, .errorAlert)
    else
      let order : Order :=
        { id := oid, user_id := u, total := total, status := "pending".data,
          customer_name := cust.name, customer_email := cust.email,
          customer_address := cust.address }
      let db1 : DB := { db with orders := db.orders ++ [order] }
      let db2 : DB :=
        if failItems then db1
        else { db1 with order_items := db1.order_items ++ mkOrderItems oid iid items }
      let db3 : DB :=
        if failClear then db2
        else { db2 with cart_items := db2.cart_items.filter (fun ci => !(ci.user_id == u)) }
      (db3, .orderPlacedScreen)

/-- `ProductDetail.handleAddToCart` (part_002 lines 29-58): unauthenticated
callers get the auth modal; otherwise look up the (user, product) cart row
(`maybeSingle`), increment its quantity by the chosen `qty` if present, else
insert a fresh row (`newId` is the database-generated key). -/
def handleAddToCartDetail (db : DB) (user : Option Nat) (pid : Nat)
    (qty : Int) (newId : Nat) : DB × UiSignal :=
  match user with
  | none => (db, .showAuthModal)
  | some u =>
    match db.cart_items.find? (fun ci => ci.user_id == u && ci.product_id == pid) with
    | some existingItem =>
        ({ db with cart_items := db.cart_items.map (fun ci =>
            if ci.id == existingItem.id
            then { ci with quantity := existingItem.quantity + qty }
            else ci) },
         .cartUpdated)
    | none =>
        ({ db with cart_items :=
            db.cart_items ++ [{ id := newId, user_id := u, product_id := pid, quantity := qty }] },
         .cartUpdated)

/-- `ProductCatalog.handleAddToCart` (part_004 lines 67-98): identical to
the detail variant but always adds quantity 1. -/
def handleAddToCartCatalog (db : DB) (user : Option Nat) (pid : Nat)
    (newId : Nat) : DB × UiSignal :=
  match user with
  | none => (db, .showAuthModal)
  | some u =>
    match db.cart_items.find? (fun ci => ci.user_id == u && ci.product_id == pid) with
    | some existingItem =>
        ({ db with cart_items := db.cart_items.map (fun ci =>
            if ci.id == existingItem.id
            then { ci with quantity := existingItem.quantity + 1 }
            else ci) },
         .cartUpdated)
    | none =>
        ({ db with cart_items :=
            db.cart_items ++ [{ id := newId, user_id := u, product_id := pid, quantity := 1 }] },
         .cartUpdated)

/-- `ShoppingCart.updateQuantity` (ShoppingCart.tsx lines 62-71):
`if (newQuantity < 1) return;` then update the row with the given id. -/
def updateQuantity (db : DB) (itemId : Nat) (newQuantity : Int) : DB :=
  if newQuantity < 1 then db
  else
    { db with cart_items := db.cart_items.map (fun ci =>
        if ci.id == itemId then { ci with quantity := newQuantity } else ci) }

/-- `ShoppingCart.removeItem` (ShoppingCart.tsx lines 73-81): delete the
cart row with the given id. -/
def removeItem (db : DB) (itemId : Nat) : DB :=
  { db with cart_items := db.cart_items.filter (fun ci => !(ci.id == itemId)) }

/-- The catalog's category filter state: the literal `'all'` or a selected
category id. -/
inductive CatFilter where
  | all
  | cat (id : Nat)
deriving Repr, DecidableEq

/-- JavaScript `String.prototype.toLowerCase`, on our character-list model. -/
def lowerStr (s : List Char) : List Char :=
  s.map Char.toLower

/-- JavaScript `haystack.includes(needle)`: `needle` occurs as a contiguous
substring of `haystack`. -/
def strContains (haystack needle : List Char) : Bool :=
  needle.isPrefixOf haystack ||
    match haystack with
    | [] => false
    | _ :: t => strContains t needle

/-- The predicate of `ProductCatalog.filteredProducts` (part_004 lines
60-65): category matches when the filter is `'all'` or equals the product's
category reference, and the lowercased search query occurs in the
lowercased name or description. -/
def matchesProduct (p : Product) (selectedCategory : CatFilter)
    (searchQuery : List Char) : Bool :=
  (match selectedCategory with
   | .all => true
   | .cat cid => p.category_id == some cid) &&
  (strContains (lowerStr p.name) (lowerStr searchQuery) ||
   strContains (lowerStr p.description) (lowerStr searchQuery))

/-- `ProductCatalog.filteredProducts`. -/
def filteredProducts (products : List Product) (selectedCategory : CatFilter)
    (searchQuery : List Char) : List Product :=
  products.filter (fun p => matchesProduct p selectedCategory searchQuery)

/-- The four SQL operations governed by row-level security policies. -/
inductive Op where
  | selectOp
  | insertOp
  | updateOp
  | deleteOp
deriving Repr, DecidableEq

/-- The `cart_items` policies (migration lines 121-139): four policies,
each `TO authenticated` with predicate `auth.uid() = user_id`.  An
anonymous caller (`none`) matches no policy. -/
def cartItemsAllowed (caller : Option Nat) (op : Op) (row : CartItem) : Bool :=
  match caller with
  | none => false
  | some uid =>
    match op with
    | .selectOp => uid == row.user_id
    | .insertOp => uid == row.user_id
    | .updateOp => uid == row.user_id
    | .deleteOp => uid == row.user_id

/-- The `orders` policies (migration lines 141-149): SELECT and INSERT
with `auth.uid() = user_id`; no UPDATE or DELETE policy exists, so row
level security denies those operations to everyone. -/
def ordersAllowed (caller : Option Nat) (op : Op) (row : Order) : Bool :=
  match caller, op with
  | some uid, .selectOp => uid == row.user_id
  | some uid, .insertOp => uid == row.user_id
  | _, _ => false

/-- The `order_items` policies (migration lines 151-171): SELECT and
INSERT allowed exactly when an `orders` row exists with the referenced id
and `user_id = auth.uid()`; no UPDATE or DELETE policy exists. -/
def orderItemsAllowed (db : DB) (caller : Option Nat) (op : Op)
    (row : OrderItem) : Bool :=
  match caller, op with
  | some uid, .selectOp =>
      db.orders.any (fun o => o.id == row.order_id && o.user_id == uid)
  | some uid, .insertOp =>
      db.orders.any (fun o => o.id == row.order_id && o.user_id == uid)
  | _, _ => false

/-- The `UNIQUE(user_id, product_id)` constraint on `cart_items`: no two
rows share a (user, product) pair. -/
def cartUniq (l : List CartItem) : Prop :=
  l.Pairwise (fun a b => ¬(a.user_id = b.user_id ∧ a.product_id = b.product_id))

/-- Spec-side reading of "the product price captured at order time": the
price of the first product whose id matches (0 if the reference dangles,
which the foreign key rules out). -/
def priceOfD (db : DB) (pid : Nat) : ℚ :=
  ((db.products.find? (fun p => p.id == pid)).map Product.price).getD 0

/-- Spec-side reading of "the search term is a case-insensitive substring
of s". -/
def SubstrCI (needle s : List Char) : Prop :=
  ∃ a b, lowerStr s = a ++ lowerStr needle ++ b

/-! Helper lemmas about the list operations the handlers use. -/

theorem filter_not_of_filter_nil {α : Type} (p : α → Bool) (l : List α)
    (h : l.filter p = []) : l.filter (fun a => !p a) = l := by
  induction l with
  | nil => rfl
  | cons x t ih =>
    rw [List.filter_cons] at h ⊢
    by_cases hx : p x = true
    · simp [hx] at h
    · simp only [Bool.not_eq_true] at hx
      simp only [hx] at h
      simp [hx, ih h]

theorem filter_self_filter_not {α : Type} (p : α → Bool) (l : List α) :
    (l.filter (fun a => !p a)).filter p = [] := by
  induction l with
  | nil => rfl
  | cons x t ih =>
    rw [List.filter_cons]
    by_cases hx : p x = true
    · simp [hx, ih]
    · simp only [Bool.not_eq_true] at hx
      simp [hx, ih]

theorem foldl_add_eq_sum (f : FetchedItem → ℚ) (l : List FetchedItem) (a : ℚ) :
    l.foldl (fun s it => s + f it) a = a + (l.map f).sum := by
  induction l generalizing a with
  | nil => simp
  | cons x t ih => simp [List.foldl_cons, ih (a + f x), add_assoc]

theorem mkOrderItems_length (oid : Nat) (items : List FetchedItem) :
    ∀ iid, (mkOrderItems oid iid items).length = items.length := by
  induction items with
  | nil => intro iid; rfl
  | cons x t ih => intro iid; simp [mkOrderItems, ih]

/-- Claim C10: `placeOrder` never writes to the products table: whatever
the caller, the customer data, the generated keys and the failure pattern,
the products relation (including every stock and price) is unchanged —
checkout does not decrement stock. -/
theorem placeOrder_products_frame (db : DB) (user : Option Nat)
    (cust : Customer) (oid iid : Nat) (f1 f2 f3 : Bool) :
    (handlePlaceOrder db user cust oid iid f1 f2 f3).1.products = db.products := by
  cases user with
  | none => rfl
  | some u =>
    simp only [handlePlaceOrder]
    by_cases h1 : f1 = true
    · simp [h1]
    · simp only [Bool.not_eq_true] at h1
      by_cases h2 : f2 = true <;> by_cases h3 : f3 = true <;>
        simp_all

/-- Claim C6 (amended): with no authenticated identity, both add-to-cart
handlers leave the database unchanged and open the sign-in modal, while
`handlePlaceOrder` leaves the database unchanged but returns silently,
without signalling that authentication is required. -/
theorem unauthenticated_no_writes (db : DB) (pid : Nat) (qty : Int)
    (nid : Nat) (cust : Customer) (oid iid : Nat) (f1 f2 f3 : Bool) :
    handleAddToCartDetail db none pid qty nid = (db, UiSignal.showAuthModal) ∧
    handleAddToCartCatalog db none pid nid = (db, UiSignal.showAuthModal) ∧
    handlePlaceOrder db none cust oid iid f1 f2 f3 = (db, UiSignal.silentReturn) :=
  ⟨rfl, rfl, rfl⟩

/-- Claim C5 (amended): only a failure of the order insert surfaces the
"order placement failed" alert (and then nothing has been written); when
the order insert succeeds, failures of the order-items insert or the cart
clear are not examined and the success screen is shown regardless. -/
theorem placeOrder_error_surfacing (db : DB) (u : Nat) (cust : Customer)
    (oid iid : Nat) (f2 f3 : Bool) :
    handlePlaceOrder db (some u) cust oid iid true f2 f3 = (db, UiSignal.errorAlert) ∧
    (handlePlaceOrder db (some u) cust oid iid false f2 f3).2 =
      UiSignal.orderPlacedScreen := by
  constructor
  · simp [handlePlaceOrder]
  · simp [handlePlaceOrder]

/-- Claim C7: `updateQuantity` with `newQuantity < 1` is a no-op (and no
error is raised: the function is total); with `newQuantity ≥ 1` it
overwrites the quantity of the line with the given id, keeps every other
line untouched, and preserves the number of lines. -/
theorem updateQuantity_spec (db : DB) (itemId : Nat) (q : Int) :
    (q < 1 → updateQuantity db itemId q = db) ∧
    (1 ≤ q →
      (updateQuantity db itemId q).cart_items.length = db.cart_items.length ∧
      ∀ ci ∈ db.cart_items,
        (ci.id = itemId →
          { ci with quantity := q } ∈ (updateQuantity db itemId q).cart_items) ∧
        (ci.id ≠ itemId → ci ∈ (updateQuantity db itemId q).cart_items)) := by
  constructor
  · intro hq
    simp [updateQuantity, hq]
  · intro hq
    have hq' : ¬(q < 1) := not_lt.mpr hq
    constructor
    · simp [updateQuantity, hq']
    · intro ci hci
      constructor
      · intro hid
        have : ({ ci with quantity := q } : CartItem) =
            (fun c => if c.id == itemId then { c with quantity := q } else c) ci := by
          simp [hid]
        rw [this]
        simp only [updateQuantity, hq', if_false]
        exact List.mem_map_of_mem _ hci
      · intro hid
        have : ci = (fun c => if c.id == itemId then { c with quantity := q } else c) ci := by
          simp [hid]
        rw [this]
        simp only [updateQuantity, hq', if_false]
        exact List.mem_map_of_mem _ hci

/-- Claim C8: `removeItem` is idempotent — deleting the same cart line id
twice gives the same state as deleting it once — and removing an id that
matches no line is not an error and leaves the state unchanged. -/
theorem removeItem_idempotent_spec (db : DB) (itemId : Nat) :
    removeItem (removeItem db itemId) itemId = removeItem db itemId ∧
    ((∀ ci ∈ db.cart_items, ci.id ≠ itemId) → removeItem db itemId = db) := by
  constructor
  · cases db
    simp [removeItem, List.filter_filter]
  · intro h
    cases db with
    | mk ps cs os ois =>
      simp only [removeItem]
      congr 1
      exact List.filter_eq_self.mpr (fun ci hci => by
        simpa using h ci hci)

theorem isPrefixOf_iff_exists (n h : List Char) :
    n.isPrefixOf h = true ↔ ∃ t, h = n ++ t := by
  induction n generalizing h with
  | nil => simp [List.isPrefixOf]
  | cons c n ih =>
    cases h with
    | nil => simp [List.isPrefixOf]
    | cons d t =>
      simp only [List.isPrefixOf, Bool.and_eq_true, beq_iff_eq, ih, List.cons_append,
        List.cons.injEq]
      constructor
      · rintro ⟨rfl, s, rfl⟩
        exact ⟨s, rfl, rfl⟩
      · rintro ⟨s, rfl, rfl⟩
        exact ⟨rfl, s, rfl⟩

theorem strContains_iff (h n : List Char) :
    strContains h n = true ↔ ∃ a b, h = a ++ n ++ b := by
  induction h with
  | nil =>
    rw [strContains]
    simp only [Bool.or_false, isPrefixOf_iff_exists]
    constructor
    · rintro ⟨t, ht⟩
      exact ⟨[], t, by simpa using ht⟩
    · rintro ⟨a, b, hab⟩
      have := List.append_eq_nil.mp hab.symm
      have h2 := List.append_eq_nil.mp this.1
      exact ⟨b, by simp [h2.2, this.2]⟩
  | cons c t ih =>
    rw [strContains]
    simp only [Bool.or_eq_true, isPrefixOf_iff_exists, ih]
    constructor
    · rintro (⟨s, hs⟩ | ⟨a, b, hab⟩)
      · exact ⟨[], s, by simpa using hs⟩
      · exact ⟨c :: a, b, by simp [hab]⟩
    · rintro ⟨a, b, hab⟩
      cases a with
      | nil => exact Or.inl ⟨b, by simpa using hab⟩
      | cons x xs =>
        simp only [List.cons_append, List.cons.injEq] at hab
        exact Or.inr ⟨xs, b, hab.2⟩

/-- Claim C9: the catalog filter keeps a product exactly when the category
filter is `all` or equals the product's category reference, and the search
term is a case-insensitive substring of the product's name or of its
description. -/
theorem filteredProducts_spec (products : List Product) (f : CatFilter)
    (q : List Char) (p : Product) :
    p ∈ filteredProducts products f q ↔
      p ∈ products ∧
      (f = CatFilter.all ∨ ∃ cid, f = CatFilter.cat cid ∧ p.category_id = some cid) ∧
      (SubstrCI q p.name ∨ SubstrCI q p.description) := by
  rw [filteredProducts, List.mem_filter]
  constructor
  · rintro ⟨hp, hm⟩
    refine ⟨hp, ?_, ?_⟩
    · rcases f with _ | cid
      · exact Or.inl rfl
      · simp only [matchesProduct, Bool.and_eq_true, beq_iff_eq] at hm
        exact Or.inr ⟨cid, rfl, hm.1⟩
    · simp only [matchesProduct, Bool.and_eq_true, Bool.or_eq_true,
        strContains_iff] at hm
      exact hm.2.imp (fun h => h) (fun h => h)
  · rintro ⟨hp, hcat, hsub⟩
    refine ⟨hp, ?_⟩
    simp only [matchesProduct, Bool.and_eq_true, Bool.or_eq_true, strContains_iff]
    constructor
    · rcases hcat with rfl | ⟨cid, rfl, hc⟩
      · rfl
      · simpa using hc
    · exact hsub.imp (fun h => h) (fun h => h)

/-- Claim C2: the row-level policies isolate owners.  A caller
authenticated as `A ≠ B` is allowed no select, insert, update or delete on
a `cart_items` row owned by `B`, and no operation at all on an `orders`
row owned by `B` (update and delete on orders have no policy and are
denied to everyone); an `order_items` row is selectable or insertable by
`A` only when some `orders` row carries the referenced order id and is
owned by `A` — a join-based check, independent of any row identifier the
caller supplies. -/
theorem rls_owner_isolation (A B : Nat) (hAB : A ≠ B) :
    (∀ (op : Op) (row : CartItem), row.user_id = B →
      cartItemsAllowed (some A) op row = false) ∧
    (∀ (op : Op) (row : Order), row.user_id = B →
      ordersAllowed (some A) op row = false) ∧
    (∀ (db : DB) (op : Op) (row : OrderItem),
      orderItemsAllowed db (some A) op row = true →
      ∃ o, o ∈ db.orders ∧ o.id = row.order_id ∧ o.user_id = A) := by
  refine ⟨?_, ?_, ?_⟩
  · intro op row hB
    cases op <;> simp [cartItemsAllowed, hB, hAB]
  · intro op row hB
    cases op <;> simp [ordersAllowed, hB, hAB]
  · intro db op row hallow
    cases op <;> simp only [orderItemsAllowed] at hallow
    case selectOp =>
      obtain ⟨o, ho, hpred⟩ := List.any_eq_true.mp hallow
      simp only [Bool.and_eq_true, beq_iff_eq] at hpred
      exact ⟨o, ho, hpred.1, hpred.2⟩
    case insertOp =>
      obtain ⟨o, ho, hpred⟩ := List.any_eq_true.mp hallow
      simp only [Bool.and_eq_true, beq_iff_eq] at hpred
      exact ⟨o, ho, hpred.1, hpred.2⟩
    case updateOp => exact absurd hallow (by simp)
    case deleteOp => exact absurd hallow (by simp)

theorem find?_append_of_none {α : Type} (p : α → Bool) (l₁ l₂ : List α)
    (h : l₁.find? p = none) : (l₁ ++ l₂).find? p = l₂.find? p := by
  induction l₁ with
  | nil => rfl
  | cons x t ih =>
    by_cases hp : p x = true
    · rw [List.find?_cons_of_pos _ hp] at h
      exact absurd h (by simp)
    · rw [List.find?_cons_of_neg _ (by simpa using hp)] at h
      rw [List.cons_append, List.find?_cons_of_neg _ (by simpa using hp)]
      exact ih h

theorem pair_filter_map_eq_nil (u p : Nat) (f : CartItem → CartItem)
    (hf : ∀ c, (f c).user_id = c.user_id ∧ (f c).product_id = c.product_id)
    (l : List CartItem)
    (hnone : ∀ ci ∈ l, ¬(ci.user_id = u ∧ ci.product_id = p)) :
    (l.map f).filter (fun ci => ci.user_id == u && ci.product_id == p) = [] := by
  induction l with
  | nil => rfl
  | cons x t ih =>
    have hx := hnone x (by simp)
    have hb : ((f x).user_id == u && (f x).product_id == p) = false := by
      rw [(hf x).1, (hf x).2]
      by_cases h1 : x.user_id = u
      · have h2 : x.product_id ≠ p := fun h2 => hx ⟨h1, h2⟩
        simp [h1, h2]
      · simp [h1]
    simp only [List.map_cons, List.filter_cons, hb]
    simpa using ih (fun ci hci => hnone ci (by simp [hci]))

/-- Claim C3: starting from a cart state satisfying the uniqueness
invariant and holding no line for (u, p), running the add-to-cart merge
twice with quantities n1 and n2 leaves exactly one cart line for (u, p),
whose quantity is n1 + n2, and the at-most-one-line-per-(user, product)
invariant still holds. -/
theorem addToCart_merge_spec (db : DB) (u p : Nat) (n1 n2 : Int)
    (id1 id2 : Nat) (hn1 : 1 ≤ n1) (hn2 : 1 ≤ n2)
    (huniq : cartUniq db.cart_items)
    (hnone : ∀ ci ∈ db.cart_items, ¬(ci.user_id = u ∧ ci.product_id = p)) :
    ((handleAddToCartDetail (handleAddToCartDetail db (some u) p n1 id1).1
        (some u) p n2 id2).1.cart_items.filter
      (fun ci => ci.user_id == u && ci.product_id == p)) =
      [{ id := id1, user_id := u, product_id := p, quantity := n1 + n2 }] ∧
    cartUniq (handleAddToCartDetail (handleAddToCartDetail db (some u) p n1 id1).1
        (some u) p n2 id2).1.cart_items := by
  have hpred : ∀ ci ∈ db.cart_items,
      ¬((ci.user_id == u && ci.product_id == p) = true) := by
    intro ci hci hc
    simp only [Bool.and_eq_true, beq_iff_eq] at hc
    exact hnone ci hci hc
  have hfind1 : db.cart_items.find?
      (fun ci => ci.user_id == u && ci.product_id == p) = none :=
    List.find?_eq_none.mpr hpred
  set newCi : CartItem := { id := id1, user_id := u, product_id := p, quantity := n1 }
    with hnew
  have hstep1 : (handleAddToCartDetail db (some u) p n1 id1).1 =
      { db with cart_items := db.cart_items ++ [newCi] } := by
    simp [handleAddToCartDetail, hfind1, hnew]
  have hfind2 : (db.cart_items ++ [newCi]).find?
      (fun ci => ci.user_id == u && ci.product_id == p) = some newCi := by
    rw [find?_append_of_none _ _ _ hfind1]
    simp [hnew]
  have hstep2 :
      (handleAddToCartDetail (handleAddToCartDetail db (some u) p n1 id1).1
        (some u) p n2 id2).1.cart_items =
      (db.cart_items ++ [newCi]).map (fun ci =>
        if ci.id == id1 then { ci with quantity := n1 + n2 } else ci) := by
    rw [hstep1]
    simp [handleAddToCartDetail, hfind2, hnew]
  rw [hstep2]
  set upd : CartItem → CartItem := fun ci =>
    if ci.id == id1 then { ci with quantity := n1 + n2 } else ci with hupd
  have hfields : ∀ c, (upd c).user_id = c.user_id ∧ (upd c).product_id = c.product_id := by
    intro c
    rw [hupd]
    by_cases hc : c.id == id1 <;> simp [hc]
  constructor
  · rw [List.map_append, List.filter_append,
      pair_filter_map_eq_nil u p upd hfields db.cart_items hnone]
    simp [hupd, hnew]
  · rw [cartUniq, List.pairwise_map]
    have hR : ∀ a b : CartItem,
        (¬(a.user_id = b.user_id ∧ a.product_id = b.product_id)) →
        ¬((upd a).user_id = (upd b).user_id ∧ (upd a).product_id = (upd b).product_id) := by
      intro a b hab hc
      exact hab ⟨by rw [← (hfields a).1, ← (hfields b).1, hc.1],
        by rw [← (hfields a).2, ← (hfields b).2, hc.2]⟩
    have happ : cartUniq (db.cart_items ++ [newCi]) := by
      rw [cartUniq, List.pairwise_append]
      refine ⟨huniq, by simp [cartUniq], ?_⟩
      intro a ha b hb
      simp only [List.mem_singleton] at hb
      subst hb
      simpa [hnew] using hnone a ha
    exact happ.imp (fun hab => hR _ _ hab)

theorem filterMapFetch_eq_map (db : DB) :
    ∀ l : List CartItem,
    (∀ ci ∈ l, ∃ prod, prod ∈ db.products ∧ prod.id = ci.product_id) →
    (l.filterMap (fun ci =>
      (db.products.find? (fun p => p.id == ci.product_id)).map (fun p =>
        ({ id := ci.id, quantity := ci.quantity, productId := p.id,
           productPrice := p.price } : FetchedItem)))) =
    l.map (fun ci =>
      { id := ci.id, quantity := ci.quantity, productId := ci.product_id,
        productPrice := priceOfD db ci.product_id }) := by
  intro l
  induction l with
  | nil => intro _; rfl
  | cons x t ih =>
    intro hfk
    obtain ⟨prod, hmem, hid⟩ := hfk x (by simp)
    have hsome : db.products.find? (fun q => q.id == x.product_id) ≠ none := by
      intro hn
      have := List.find?_eq_none.mp hn prod hmem
      simp [hid] at this
    obtain ⟨q, hq⟩ := Option.ne_none_iff_exists'.mp hsome
    have hqid : q.id = x.product_id := by simpa using List.find?_some hq
    have hprice : priceOfD db x.product_id = q.price := by
      simp [priceOfD, hq]
    rw [List.filterMap_cons, List.map_cons, hq]
    simp only [Option.map_some']
    rw [ih (fun ci hci => hfk ci (by simp [hci]))]
    simp [hqid, hprice]

theorem fetchCartItems_eq_map (db : DB) (u : Nat)
    (hfk : ∀ ci ∈ cartLines db u, ∃ prod, prod ∈ db.products ∧ prod.id = ci.product_id) :
    fetchCartItems db u = (cartLines db u).map (fun ci =>
      { id := ci.id, quantity := ci.quantity, productId := ci.product_id,
        productPrice := priceOfD db ci.product_id }) := by
  rw [fetchCartItems]
  exact filterMapFetch_eq_map db (cartLines db u) hfk

/-- Claim C1: a successful `placeOrder` on a non-empty cart (all storage
steps succeed, and every cart line's product reference resolves, as the
foreign key guarantees) appends exactly one Order whose total is the sum
over the user's cart lines of quantity times the product price captured at
order time, appends one OrderLine per CartLine carrying that line's
quantity and captured price, and leaves zero CartLines for that user. -/
theorem placeOrder_nonempty_spec (db : DB) (u : Nat) (cust : Customer)
    (oid iid : Nat) (hne : cartLines db u ≠ [])
    (hfk : ∀ ci ∈ cartLines db u, ∃ prod, prod ∈ db.products ∧ prod.id = ci.product_id) :
    (handlePlaceOrder db (some u) cust oid iid false false false).2 =
      UiSignal.orderPlacedScreen ∧
    (handlePlaceOrder db (some u) cust oid iid false false false).1.orders =
      db.orders ++ [{ id := oid, user_id := u,
                      total := ((cartLines db u).map
                        (fun ci => priceOfD db ci.product_id * (ci.quantity : ℚ))).sum,
                      status := "pending".data, customer_name := cust.name,
                      customer_email := cust.email,
                      customer_address := cust.address }] ∧
    (handlePlaceOrder db (some u) cust oid iid false false false).1.order_items =
      db.order_items ++ mkOrderItems oid iid ((cartLines db u).map (fun ci =>
        { id := ci.id, quantity := ci.quantity, productId := ci.product_id,
          productPrice := priceOfD db ci.product_id })) ∧
    (handlePlaceOrder db (some u) cust oid iid false false false).1.order_items.length =
      db.order_items.length + (cartLines db u).length ∧
    cartLines (handlePlaceOrder db (some u) cust oid iid false false false).1 u = [] := by
  have hfetch := fetchCartItems_eq_map db u hfk
  have htotal : checkoutTotal (fetchCartItems db u) =
      ((cartLines db u).map
        (fun ci => priceOfD db ci.product_id * (ci.quantity : ℚ))).sum := by
    rw [hfetch, checkoutTotal, foldl_add_eq_sum, List.map_map]
    simp only [Function.comp_def, zero_add]
  refine ⟨by simp [handlePlaceOrder], ?_, ?_, ?_, ?_⟩
  · simp only [handlePlaceOrder, Bool.false_eq_true, if_false]
    simp [htotal]
  · simp only [handlePlaceOrder, Bool.false_eq_true, if_false]
    simp [hfetch]
  · simp only [handlePlaceOrder, Bool.false_eq_true, if_false]
    simp [mkOrderItems_length, hfetch]
  · simp only [handlePlaceOrder, Bool.false_eq_true, if_false, cartLines]
    simpa using filter_self_filter_not (fun ci => ci.user_id == u) db.cart_items

/-- Claim C4 (amended): `placeOrder` on an empty cart is not rejected —
with the storage succeeding it reports success, creating exactly one Order
with total 0 (status "pending") and zero OrderLine rows, and leaving the
cart and every other table unchanged. -/
theorem placeOrder_empty_cart_zero_order (db : DB) (u : Nat) (cust : Customer)
    (oid iid : Nat) (hempty : cartLines db u = []) :
    handlePlaceOrder db (some u) cust oid iid false false false =
      ({ db with orders := db.orders ++
          [{ id := oid, user_id := u, total := 0, status := "pending".data,
             customer_name := cust.name, customer_email := cust.email,
             customer_address := cust.address }] },
       UiSignal.orderPlacedScreen) := by
  have hfetch : fetchCartItems db u = [] := by
    rw [fetchCartItems, hempty]
    rfl
  have hclear : db.cart_items.filter (fun ci => !(ci.user_id == u)) = db.cart_items :=
    filter_not_of_filter_nil _ _ hempty
  cases db with
  | mk ps cs os ois =>
    simp only [handlePlaceOrder, hfetch, checkoutTotal, List.foldl_nil,
      mkOrderItems, Bool.false_eq_true, if_false, List.append_nil]
    simp only at hclear
    simp [hclear]

/-! Concrete store states used by the witnesses and counterexamples. -/

/-- A seed product, mirroring the "Wireless Headphones" row (price 199.99,
stock 50). -/
def exProduct : Product :=
  { id := 100, name := "Wireless Headphones".data,
    description := "Premium noise-cancelling".data, price := 19999 / 100,
    image_url := [], category_id := some 7, stock := 50, featured := true }

/-- The customer snapshot of the spec's concrete scenario. -/
def exCustomer : Customer :=
  { name := "A".data, email := "a@x.com".data, address := "1 Main St".data }

/-- A store where user 1 has one cart line (two headphones). -/
def exDB : DB :=
  { products := [exProduct],
    cart_items := [{ id := 1, user_id := 1, product_id := 100, quantity := 2 }],
    orders := [], order_items := [] }

/-- A store where user 1's cart is empty. -/
def emptyCartDB : DB :=
  { products := [exProduct], cart_items := [], orders := [], order_items := [] }

/-- Witness for claim C1: at the concrete store `exDB`, the checkout
succeeds and afterwards user 1 has no cart lines. -/
theorem placeOrder_nonempty_spec_witness :
    (handlePlaceOrder exDB (some 1) exCustomer 10 20 false false false).2 =
      UiSignal.orderPlacedScreen ∧
    cartLines (handlePlaceOrder exDB (some 1) exCustomer 10 20 false false false).1 1 = [] :=
  ⟨(placeOrder_nonempty_spec exDB 1 exCustomer 10 20 (by decide)
      (fun ci hci => ⟨exProduct, by simp [exDB], by
        have : ci = { id := 1, user_id := 1, product_id := 100, quantity := 2 } := by
          simpa [cartLines, exDB] using hci
        simp [this, exProduct]⟩)).1,
   (placeOrder_nonempty_spec exDB 1 exCustomer 10 20 (by decide)
      (fun ci hci => ⟨exProduct, by simp [exDB], by
        have : ci = { id := 1, user_id := 1, product_id := 100, quantity := 2 } := by
          simpa [cartLines, exDB] using hci
        simp [this, exProduct]⟩)).2.2.2.2⟩

/-- Witness for claim C2: caller 1 may not select caller 2's cart row. -/
theorem rls_owner_isolation_witness :
    cartItemsAllowed (some 1) Op.selectOp
      { id := 0, user_id := 2, product_id := 0, quantity := 1 } = false :=
  (rls_owner_isolation 1 2 (by decide)).1 Op.selectOp
    { id := 0, user_id := 2, product_id := 0, quantity := 1 } rfl

/-- Witness for claim C3: at `exDB`, user 2 adds product 100 with
quantities 2 then 3 and ends with a single (2, 100) line of quantity 5. -/
theorem addToCart_merge_spec_witness :
    ((handleAddToCartDetail (handleAddToCartDetail exDB (some 2) 100 2 7).1
        (some 2) 100 3 8).1.cart_items.filter
      (fun ci => ci.user_id == 2 && ci.product_id == 100)) =
      [{ id := 7, user_id := 2, product_id := 100, quantity := 2 + 3 }] :=
  (addToCart_merge_spec exDB 2 100 2 3 7 8 (by decide) (by decide)
    (by simp [cartUniq, exDB]) (by decide)).1

/-- Counterexample for claim C4 as stated: at `emptyCartDB` (user 1's cart
is empty) `placeOrder` is not rejected — it reports success, no error is
alerted, and an Order row is created. -/
theorem placeOrder_empty_cart_not_rejected :
    (handlePlaceOrder emptyCartDB (some 1) exCustomer 10 20 false false false).2 =
      UiSignal.orderPlacedScreen ∧
    UiSignal.orderPlacedScreen ≠ UiSignal.errorAlert ∧
    (handlePlaceOrder emptyCartDB (some 1) exCustomer 10 20 false false false).1.orders.length
      = 1 :=
  ⟨rfl, by decide, rfl⟩

/-- Witness for claim C4 (amended) at `emptyCartDB`. -/
theorem placeOrder_empty_cart_zero_order_witness :
    handlePlaceOrder emptyCartDB (some 1) exCustomer 10 20 false false false =
      ({ emptyCartDB with orders := emptyCartDB.orders ++
          [{ id := 10, user_id := 1, total := 0, status := "pending".data,
             customer_name := exCustomer.name, customer_email := exCustomer.email,
             customer_address := exCustomer.address }] },
       UiSignal.orderPlacedScreen) :=
  placeOrder_empty_cart_zero_order emptyCartDB 1 exCustomer 10 20 (by decide)

/-- Counterexample for claim C5 as stated: at `exDB`, run a checkout in
which the order insert succeeds but the order-items insert fails.  No
"order placement failed" error is surfaced — the success screen is shown —
even though no OrderLine was written. -/
theorem placeOrder_swallows_item_failure :
    (handlePlaceOrder exDB (some 1) exCustomer 10 20 false true false).2 =
      UiSignal.orderPlacedScreen ∧
    UiSignal.orderPlacedScreen ≠ UiSignal.errorAlert ∧
    (handlePlaceOrder exDB (some 1) exCustomer 10 20 false true false).1.order_items =
      exDB.order_items :=
  ⟨rfl, by decide, rfl⟩

/-- Counterexample for claim C6 as stated: an unauthenticated `placeOrder`
leaves the store unchanged but merely returns silently — it does not
produce the authentication-required signal (the sign-in modal). -/
theorem placeOrder_unauthenticated_silent :
    handlePlaceOrder exDB none exCustomer 10 20 false false false =
      (exDB, UiSignal.silentReturn) ∧
    UiSignal.silentReturn ≠ UiSignal.showAuthModal :=
  ⟨rfl, by decide⟩

/-- Witness for claim C7 at `exDB`: quantity 0 is a no-op, quantity 5
keeps the number of lines. -/
theorem updateQuantity_spec_witness :
    updateQuantity exDB 1 0 = exDB ∧
    (updateQuantity exDB 1 5).cart_items.length = exDB.cart_items.length :=
  ⟨(updateQuantity_spec exDB 1 0).1 (by decide),
   ((updateQuantity_spec exDB 1 5).2 (by decide)).1⟩

/-- Witness for claim C8 at `exDB`: removing the non-existent line 99 is a
no-op. -/
theorem removeItem_idempotent_spec_witness :
    removeItem exDB 99 = exDB :=
  (removeItem_idempotent_spec exDB 99).2 (by decide)

end ShopHub
